import Mathlib

/-!
Shallow embedding of the client-side authentication session lifecycle of the
Fruitzy grocery app (frontend/src/services/AuthService.ts,
frontend/src/context/AuthContext.tsx) and of the inventory seeding utility
(seedInventory), together with proofs about the spec claims.

External backends (the auth provider and the document store) are modelled as
explicit oracle records: each backend call site in the source corresponds to
one oracle field holding the outcome that call would produce.  Document-store
contents are modelled as functions from document id to an optional document.
Thrown JS exceptions are modelled as `Except AuthError`.
-/

namespace Fruitzy

/-- Identity: the read-only projection of the external auth backend's `User`
record held by the client (`uid`, `email`, `displayName`, `emailVerified`). -/
structure User where
  uid : String
  email : Option String
  displayName : Option String
  emailVerified : Bool
deriving Repr, DecidableEq

/-- `AuthError` from src/types/auth: a JS `Error` with a message and an
optional backend `code`. -/
structure AuthError where
  code : Option String
  message : String
deriving Repr, DecidableEq

/-- `UserData` from src/types/auth: the Profile document stored in the
`users` collection. -/
structure UserData where
  email : String
  fullName : String
  username : String
  createdAt : String
  emailVerified : Bool
deriving Repr, DecidableEq

/-- A document-store collection keyed by string id. -/
def Store (α : Type) : Type := String → Option α

/-- The empty collection. -/
def Store.empty {α : Type} : Store α := fun _ => none

/-- `setDoc`: (over)write the document at key `k`. -/
def Store.set {α : Type} (store : Store α) (k : String) (v : α) : Store α :=
  fun q => if q = k then some v else store q

/-- JS truthiness of a nullable string (`null` and `""` are falsy). -/
def strTruthy : Option String → Bool
  | none => false
  | some s => s ≠ ""

/-- JS `s || ''` for a nullable string. -/
def strOrEmpty : Option String → String
  | none => ""
  | some s => s

/-- The `message` selected by the `switch (error.code)` in `handleAuthError`
(AuthService.ts lines 318-359); the default case is JS
`error.message || message` with the initial message. -/
def authErrorMessage (code : Option String) (rawMessage : String) : String :=
  if code = some "auth/email-already-in-use" then
    "This email is already registered. Please sign in instead."
  else if code = some "auth/invalid-email" then
    "Please enter a valid email address."
  else if code = some "auth/operation-not-allowed" then
    "This sign-in method is not enabled. Please contact support."
  else if code = some "auth/weak-password" then
    "Password is too weak. Please use at least 6 characters."
  else if code = some "auth/user-disabled" then
    "This account has been disabled. Please contact support."
  else if code = some "auth/user-not-found" then
    "No account found with this email. Please sign up first."
  else if code = some "auth/wrong-password" then
    "Incorrect password. Please try again."
  else if code = some "auth/too-many-requests" then
    "Too many failed attempts. Please try again later."
  else if code = some "auth/network-request-failed" then
    "Network error. Please check your internet connection."
  else if code = some "auth/invalid-credential" then
    "Invalid credentials. Please check your email and password."
  else if rawMessage = "" then "An error occurred during authentication"
  else rawMessage

/-- `handleAuthError`: rewrite a raw backend error into the error surfaced to
callers (new `Error(message)` carrying the original `code`). -/
def handleAuthError (error : AuthError) : AuthError :=
  { code := error.code, message := authErrorMessage error.code error.message }

/-- The backend error codes the `switch` in `handleAuthError` recognizes. -/
def knownAuthCodes : List String :=
  [ "auth/email-already-in-use", "auth/invalid-email", "auth/operation-not-allowed",
    "auth/weak-password", "auth/user-disabled", "auth/user-not-found",
    "auth/wrong-password", "auth/too-many-requests", "auth/network-request-failed",
    "auth/invalid-credential" ]

/-- Observable calls a Credential Operation issues against the two external
backends (the auth provider and the `users` document collection). -/
inductive AuthEvent where
  | createAccount (email password : String)
  | updateDisplayName (uid displayName : String)
  | sendVerification (uid : String)
  | profileRead (uid : String)
  | profileWrite (uid : String) (data : UserData)
deriving Repr, DecidableEq

/-- Outcome of a Credential Operation: the returned-or-thrown value, the trace
of backend calls issued, and the resulting `users` collection. -/
structure AuthOpResult (α : Type) where
  result : Except AuthError α
  events : List AuthEvent
  store : Store UserData

/-- Oracles for the backend calls `signUpWithEmail` can issue. -/
structure SignUpBackend where
  createAccount : Except AuthError User
  updateProfileOk : Except AuthError Unit
  sendVerificationOk : Except AuthError Unit
  profileWriteOk : Except AuthError Unit
  now : String

/-- `signUpWithEmail` (AuthService.ts lines 85-122): create the account, set
the display name when `fullName` is truthy, send the verification email, and
when `username || fullName` is truthy write the Profile document — with no
prior existence read.  Any thrown error is rewritten by `handleAuthError`. -/
def signUpWithEmail (b : SignUpBackend) (store : Store UserData)
    (email password : String) (fullName username : Option String) :
    AuthOpResult User :=
  match b.createAccount with
  | .error e => ⟨.error (handleAuthError e), [.createAccount email password], store⟩
  | .ok user =>
    let evs1 := [AuthEvent.createAccount email password]
    let updStep : Except AuthError Unit × List AuthEvent :=
      if strTruthy fullName then
        (b.updateProfileOk, evs1 ++ [.updateDisplayName user.uid (strOrEmpty fullName)])
      else (.ok (), evs1)
    match updStep with
    | (.error e, evs2) => ⟨.error (handleAuthError e), evs2, store⟩
    | (.ok _, evs2) =>
      let evs3 := evs2 ++ [AuthEvent.sendVerification user.uid]
      match b.sendVerificationOk with
      | .error e => ⟨.error (handleAuthError e), evs3, store⟩
      | .ok _ =>
        if strTruthy username || strTruthy fullName then
          let userData : UserData :=
            { email := strOrEmpty user.email
              fullName := strOrEmpty fullName
              username := strOrEmpty username
              createdAt := b.now
              emailVerified := false }
          let evs4 := evs3 ++ [AuthEvent.profileWrite user.uid userData]
          match b.profileWriteOk with
          | .error e => ⟨.error (handleAuthError e), evs4, store⟩
          | .ok _ => ⟨.ok user, evs4, store.set user.uid userData⟩
        else ⟨.ok user, evs3, store⟩

/-- The federated sign-in strategy, resolved once at startup: `web` when
`Platform.OS === 'web'`, `nativeModule` when the native Google Sign-In module
loaded, `unavailable` otherwise. -/
inductive GoogleStrategy where
  | web
  | nativeModule
  | unavailable
deriving Repr, DecidableEq

/-- The `statusCodes` object exported by the native Google Sign-In module
(`null` when the module did not load). -/
structure StatusCodes where
  signInCancelled : String
  inProgress : String
  playServicesNotAvailable : String
deriving Repr, DecidableEq

/-- Substring containment, as JS `String.prototype.includes`. -/
def strIncludes (s sub : String) : Bool :=
  decide (sub.toList <:+: s.toList)

/-- JS `Error.prototype.toString()`. -/
def errToString (e : AuthError) : String :=
  if e.message = "" then "Error" else "Error: " ++ e.message

/-- The detailed message built for `DEVELOPER_ERROR` (code `'10'`). -/
def developerErrorMessage (originalError : String) : String :=
  "DEVELOPER_ERROR: " ++ originalError ++
    "\n\nPlease check:\n1. SHA-1 fingerprint (7C:02:ED:E8:5B:A0:DC:6E:78:F0:4B:86:9D:47:9C:0A:2F:77:C7:A4) is registered in Firebase Console for package: com.fruitzy.app\n2. Android OAuth client ID is configured in Google Cloud Console with the same SHA-1\n3. webClientId matches your Firebase Web Client ID\n4. Package name in Firebase Console matches: com.fruitzy.app"

/-- The tail of the `catch` in `signInWithGoogle`: the branches not guarded by
`statusCodes`. -/
def googleCatchRest (e : AuthError) : AuthError :=
  if e.code = some "10" || strIncludes e.message "DEVELOPER_ERROR" then
    { code := none
      message := developerErrorMessage (if e.message = "" then errToString e else e.message) }
  else if strIncludes e.message "popup" || strIncludes e.message "pop-up" then
    { code := none, message := "Google sign-in popup was blocked. Please allow popups and try again." }
  else
    { code := none
      message :=
        if e.message ≠ "" then e.message
        else if errToString e ≠ "" then errToString e
        else "Unknown Google Sign-In error" }

/-- The `catch` block of `signInWithGoogle` (AuthService.ts lines 213-247):
every thrown error is rewritten into a fresh `Error` before reaching the
caller. -/
def googleCatch (statusCodes : Option StatusCodes) (e : AuthError) : AuthError :=
  match statusCodes with
  | some sc =>
    if e.code = some sc.signInCancelled then
      { code := none, message := "Google sign-in was cancelled" }
    else if e.code = some sc.inProgress then
      { code := none, message := "Google sign-in is already in progress" }
    else if e.code = some sc.playServicesNotAvailable then
      { code := none, message := "Google Play Services is not available" }
    else googleCatchRest e
  | none => googleCatchRest e

/-- Oracles for the backend calls `signInWithGoogle` can issue. -/
structure GoogleEnv where
  strategy : GoogleStrategy
  statusCodes : Option StatusCodes
  popupResult : Except AuthError User
  hasPlayServices : Except AuthError Unit
  nativeSignIn : Except AuthError (Option String)
  credentialResult : Except AuthError User
  profileWriteOk : Except AuthError Unit
  now : String

/-- The Profile document written by federated sign-in for a new user:
`emailVerified` is set unconditionally to true. -/
def googleUserData (now : String) (user : User) : UserData :=
  { email := strOrEmpty user.email
    fullName := strOrEmpty user.displayName
    username := ""
    createdAt := now
    emailVerified := true }

/-- The existence-gated Profile write shared by both federated sign-in
branches: `getDoc`, and `setDoc` only when no document exists for
`user.uid`. -/
def googleProfileSync (store : Store UserData) (now : String)
    (writeOk : Except AuthError Unit) (user : User) :
    Except AuthError Unit × List AuthEvent × Store UserData :=
  let evs := [AuthEvent.profileRead user.uid]
  match store user.uid with
  | some _ => (.ok (), evs, store)
  | none =>
    let userData := googleUserData now user
    match writeOk with
    | .error e => (.error e, evs ++ [.profileWrite user.uid userData], store)
    | .ok _ =>
        (.ok (), evs ++ [.profileWrite user.uid userData], store.set user.uid userData)

/-- The `try` body of `signInWithGoogle` (AuthService.ts lines 141-212):
web popup flow, native credential-exchange flow, or the unavailable error. -/
def signInWithGoogleBody (env : GoogleEnv) (store : Store UserData) :
    Except AuthError User × List AuthEvent × Store UserData :=
  match env.strategy with
  | .web =>
    match env.popupResult with
    | .error e => (.error e, [], store)
    | .ok user =>
      let s := googleProfileSync store env.now env.profileWriteOk user
      match s.1 with
      | .error e => (.error e, s.2.1, s.2.2)
      | .ok _ => (.ok user, s.2.1, s.2.2)
  | .unavailable =>
    (.error { code := none
              message := "Google Sign-In requires a custom development build. Please use email/password sign-in or create a custom dev build with EAS Build." },
     [], store)
  | .nativeModule =>
    match env.hasPlayServices with
    | .error e => (.error e, [], store)
    | .ok _ =>
      match env.nativeSignIn with
      | .error e => (.error e, [], store)
      | .ok idToken =>
        if strTruthy idToken then
          match env.credentialResult with
          | .error e => (.error e, [], store)
          | .ok user =>
            let s := googleProfileSync store env.now env.profileWriteOk user
            match s.1 with
            | .error e => (.error e, s.2.1, s.2.2)
            | .ok _ => (.ok user, s.2.1, s.2.2)
        else
          (.error { code := none
                    message := "Google sign-in failed: missing id_token. Please check your SHA-1 fingerprint is registered in Firebase Console." },
           [], store)

/-- `signInWithGoogle` (AuthService.ts lines 141-248): the strategy-dispatched
body with every thrown error rewritten by the `catch` block. -/
def signInWithGoogle (env : GoogleEnv) (store : Store UserData) :
    AuthOpResult User :=
  let r := signInWithGoogleBody env store
  match r.1 with
  | .ok u => ⟨.ok u, r.2.1, r.2.2⟩
  | .error e => ⟨.error (googleCatch env.statusCodes e), r.2.1, r.2.2⟩

/-- Oracles for the backend calls `signOut` can issue. -/
structure SignOutEnv where
  strategy : GoogleStrategy
  firebaseSignOut : Except AuthError Unit
  googleSignOut : Except AuthError Unit

/-- `signOut` (AuthService.ts lines 254-272): Firebase sign-out, then — on
mobile with the native module available — a best-effort Google sign-out whose
error is caught and only logged. -/
def signOut (env : SignOutEnv) : Except AuthError Unit :=
  match env.firebaseSignOut with
  | .error e => .error (handleAuthError e)
  | .ok _ =>
    match env.strategy with
    | .nativeModule =>
      match env.googleSignOut with
      | .error _ => .ok ()
      | .ok _ => .ok ()
    | _ => .ok ()

/-- `resendEmailVerification` (AuthService.ts lines 288-298): throws
`No user is currently signed in` when `auth.currentUser` is null, otherwise
re-sends the verification email; errors are rewritten by `handleAuthError`. -/
def resendEmailVerification (currentUser : Option User)
    (sendResult : Except AuthError Unit) : Except AuthError Unit :=
  match currentUser with
  | none => .error (handleAuthError { code := none, message := "No user is currently signed in" })
  | some _ =>
    match sendResult with
    | .error e => .error (handleAuthError e)
    | .ok _ => .ok ()

/-- `getUserData` (AuthService.ts lines 303-313): read the Profile document
for `uid`, returning null when absent. -/
def getUserData (store : Store UserData) (uid : String) : Except AuthError (Option UserData) :=
  .ok (store uid)

/-- The three state hooks of `AuthProvider` (AuthContext.tsx lines 17-19). -/
structure SessionState where
  user : Option User
  loading : Bool
  initializing : Bool
deriving Repr, DecidableEq

/-- Initial provider state: `user=null, loading=true, initializing=true`. -/
def initialSessionState : SessionState :=
  { user := none, loading := true, initializing := true }

/-- The `onAuthStateChanged` callback registered by `AuthProvider`
(AuthContext.tsx lines 23-27): replace `user` with the callback argument and
clear both flags, regardless of the previous state. -/
def authStateCallback (_s : SessionState) (currentUser : Option User) : SessionState :=
  { user := currentUser, loading := false, initializing := false }

/-- `AuthContextType` from src/types/auth: the value exposed to consumers. -/
structure AuthContextType where
  user : Option User
  loading : Bool
  initializing : Bool
  isAuthenticated : Bool
  isEmailVerified : Bool
deriving Repr, DecidableEq

/-- The context `value` built by `AuthProvider` (AuthContext.tsx lines 33-39):
`isAuthenticated = !!user`, `isEmailVerified = user?.emailVerified || false`. -/
def contextValue (s : SessionState) : AuthContextType :=
  { user := s.user
    loading := s.loading
    initializing := s.initializing
    isAuthenticated := s.user.isSome
    isEmailVerified := (s.user.map User.emailVerified).getD false }

/-- Run the provider from its initial state through a sequence of backend
auth-state callback events. -/
def replaySession (events : List (Option User)) : SessionState :=
  events.foldl authStateCallback initialSessionState

/-- `useAuth` (AuthContext.tsx lines 51-57): throw when no provider supplied a
context value, return the context otherwise. -/
def useAuth (context : Option AuthContextType) : Except AuthError AuthContextType :=
  match context with
  | none => .error { code := none, message := "useAuth must be used within an AuthProvider" }
  | some c => .ok c

/-- One record of `productsData` in the seeding module. -/
structure ProductData where
  id : String
  name : String
  description : String
  price : ℚ
  stock : Nat
  imageKey : String
deriving Repr, DecidableEq

/-- The 13 fixed products seeded into the `inventory` collection. -/
def productsData : List ProductData :=
  [ { id := "prd-001", name := "Mango",
      description := "Fresh tropical mango with sweet, juicy flesh. Perfect for smoothies and desserts.",
      price := 5.99, stock := 32, imageKey := "mango" },
    { id := "prd-002", name := "Orange",
      description := "Juicy, sweet oranges bursting with vitamin C. Fresh and refreshing.",
      price := 4.99, stock := 28, imageKey := "orange" },
    { id := "prd-003", name := "Pomegranate",
      description := "Ruby red pomegranate seeds, sweet and tangy. Packed with antioxidants and flavor.",
      price := 7.49, stock := 23, imageKey := "pomegranate" },
    { id := "prd-004", name := "Grapes",
      description := "Crisp, sweet grapes in red and purple varieties. Refreshing and perfect for snacking.",
      price := 5.99, stock := 41, imageKey := "grapes" },
    { id := "prd-005", name := "Strawberry",
      description := "Sweet and juicy strawberries, hand-picked at peak ripeness. Ideal for snacking and baking.",
      price := 5.49, stock := 17, imageKey := "strawberry" },
    { id := "prd-006", name := "Banana",
      description := "Ripe yellow bananas, naturally sweet and nutritious. Great for breakfast and snacks.",
      price := 2.99, stock := 35, imageKey := "banana" },
    { id := "prd-007", name := "Blueberries",
      description := "Fresh blueberries packed with antioxidants. Sweet and tangy, perfect for smoothies.",
      price := 4.99, stock := 20, imageKey := "blueberries" },
    { id := "prd-008", name := "Durian",
      description := "Exotic durian fruit with unique flavor and creamy texture. Known as the king of fruits.",
      price := 12.99, stock := 14, imageKey := "durian" },
    { id := "prd-009", name := "Fig",
      description := "Fresh, sweet figs with soft, jammy interior. Perfect for desserts and cheese pairings.",
      price := 6.49, stock := 26, imageKey := "fig" },
    { id := "prd-010", name := "Avocado",
      description := "Ripe, creamy avocado perfect for salads, toast, and guacamole. Rich in healthy fats.",
      price := 3.99, stock := 33, imageKey := "avocado" },
    { id := "prd-011", name := "Chicken",
      description := "Premium organic chicken, tender and juicy. Perfect for healthy meals and grilling.",
      price := 8.99, stock := 25, imageKey := "chicken" },
    { id := "prd-012", name := "Bread",
      description := "Fresh artisan bread with crispy crust and soft interior. Baked daily for maximum freshness.",
      price := 3.49, stock := 30, imageKey := "bread" },
    { id := "prd-013", name := "Avocado Premium",
      description := "Premium organic avocado with exceptional flavor and texture. Perfect for gourmet dishes.",
      price := 6.99, stock := 22, imageKey := "avocadoPremium" } ]

/-- Per-product outcome status recorded by `seedInventory`. -/
inductive SeedStatus where
  | success
  | skipped
  | failed
deriving Repr, DecidableEq

/-- One entry of the `results` array built by `seedInventory`. -/
structure SeedResult where
  id : String
  name : String
  status : SeedStatus
deriving Repr, DecidableEq

/-- Oracles for the per-product document-store calls of `seedInventory`:
whether `getDoc` and `setDoc` throw for a given product id. -/
structure SeedEnv where
  readFails : String → Bool
  writeFails : String → Bool

/-- One iteration of the `for` loop in `seedInventory` (part_001 lines
496-542): read the document; skip when it exists; write it otherwise; any
thrown error is caught per-product and recorded as `failed`. -/
def seedProduct (env : SeedEnv) (store : Store ProductData) (p : ProductData) :
    SeedResult × Store ProductData :=
  if env.readFails p.id then ({ id := p.id, name := p.name, status := .failed }, store)
  else
    match store p.id with
    | some _ => ({ id := p.id, name := p.name, status := .skipped }, store)
    | none =>
      if env.writeFails p.id then ({ id := p.id, name := p.name, status := .failed }, store)
      else ({ id := p.id, name := p.name, status := .success }, store.set p.id p)

/-- The `for` loop of `seedInventory` over a product list. -/
def seedLoop (env : SeedEnv) : Store ProductData → List ProductData →
    List SeedResult × Store ProductData
  | store, [] => ([], store)
  | store, p :: ps =>
    let (r, store2) := seedProduct env store p
    let (rs, storeFinal) := seedLoop env store2 ps
    (r :: rs, storeFinal)

/-- The summary object returned by `seedInventory`. -/
structure SeedSummary where
  success : Bool
  results : List SeedResult
  total : Nat
  added : Nat
  skipped : Nat
  failed : Nat
deriving Repr, DecidableEq

/-- `seedInventory` (part_001 lines 489-578): loop over the 13 products with
per-product error capture and return the summary with
`success = (failedCount === 0)`. -/
def seedInventory (env : SeedEnv) (store : Store ProductData) :
    SeedSummary × Store ProductData :=
  let (results, storeFinal) := seedLoop env store productsData
  let successCount := (results.filter (fun r => r.status == SeedStatus.success)).length
  let skippedCount := (results.filter (fun r => r.status == SeedStatus.skipped)).length
  let failedCount := (results.filter (fun r => r.status == SeedStatus.failed)).length
  ({ success := failedCount == 0
     results := results
     total := results.length
     added := successCount
     skipped := skippedCount
     failed := failedCount }, storeFinal)

/-- The closed error taxonomy of spec section 7. -/
inductive AuthErrorKind where
  | invalidCredentials
  | accountConflict
  | accountDisabled
  | notFound
  | rateLimited
  | networkUnavailable
  | providerCancelled
  | providerInProgress
  | providerUnavailable
  | providerMisconfigured
  | noActiveSession
  | unknown
deriving Repr, DecidableEq

/-- Spec-side refinement map, following the spec's words (section 7 taxonomy,
kind → cause): classifies each error the Credential Operations surface into
its spec kind.  The code itself carries no kind tags, so this definition is
written from the spec, to be compared with the concrete errors produced by the
code-side definitions above. -/
def specErrorKind (e : AuthError) : AuthErrorKind :=
  match e.code with
  | some "auth/wrong-password" => .invalidCredentials
  | some "auth/invalid-email" => .invalidCredentials
  | some "auth/invalid-credential" => .invalidCredentials
  | some "auth/email-already-in-use" => .accountConflict
  | some "auth/user-disabled" => .accountDisabled
  | some "auth/user-not-found" => .notFound
  | some "auth/too-many-requests" => .rateLimited
  | some "auth/network-request-failed" => .networkUnavailable
  | _ =>
    if e.message = "Google sign-in was cancelled" then .providerCancelled
    else if e.message = "Google sign-in is already in progress" then .providerInProgress
    else if e.message = "Google Play Services is not available" then .providerUnavailable
    else if strIncludes e.message "custom development build" then .providerUnavailable
    else if strIncludes e.message "DEVELOPER_ERROR" then .providerMisconfigured
    else if e.message = "No user is currently signed in" then .noActiveSession
    else .unknown

/-- The error `resendEmailVerification` surfaces when no user is signed in. -/
def noActiveSessionError : AuthError :=
  { code := none, message := "No user is currently signed in" }

/-- Is this event a Profile write for `uid`? -/
def isProfileWriteFor (uid : String) : AuthEvent → Bool
  | .profileWrite w _ => w == uid
  | _ => false

/-- Is this event a verification-email dispatch for `uid`? -/
def isSendVerificationFor (uid : String) : AuthEvent → Bool
  | .sendVerification w => w == uid
  | _ => false

/-! Concrete fixtures used by witnesses and counterexamples. -/

def uAnn : User :=
  { uid := "u1", email := some "a@b.com", displayName := none, emailVerified := false }

def signUpBackendOk : SignUpBackend :=
  { createAccount := .ok uAnn
    updateProfileOk := .ok ()
    sendVerificationOk := .ok ()
    profileWriteOk := .ok ()
    now := "2026-01-01T00:00:00.000Z" }

def oldProfile : UserData :=
  { email := "old@b.com", fullName := "Old Name", username := "oldname",
    createdAt := "2020-01-01T00:00:00.000Z", emailVerified := true }

def storeWithU1 : Store UserData := Store.empty.set "u1" oldProfile

def firestoreDownError : AuthError :=
  { code := some "firestore/unavailable", message := "Failed to write user document" }

def signUpBackendWriteFail : SignUpBackend :=
  { signUpBackendOk with profileWriteOk := .error firestoreDownError }

def gUser : User :=
  { uid := "g1", email := some "g@gmail.com", displayName := some "G User",
    emailVerified := true }

def gEnvWeb : GoogleEnv :=
  { strategy := .web
    statusCodes := none
    popupResult := .ok gUser
    hasPlayServices := .ok ()
    nativeSignIn := .ok none
    credentialResult := .ok gUser
    profileWriteOk := .ok ()
    now := "2026-01-02T00:00:00.000Z" }

def gStatusCodes : StatusCodes :=
  { signInCancelled := "12501", inProgress := "12502",
    playServicesNotAvailable := "12503" }

def gEnvNativeWriteFail : GoogleEnv :=
  { strategy := .nativeModule
    statusCodes := some gStatusCodes
    popupResult := .error { code := none, message := "not used on native" }
    hasPlayServices := .ok ()
    nativeSignIn := .ok (some "id-token-123")
    credentialResult := .ok gUser
    profileWriteOk := .error firestoreDownError
    now := "2026-01-02T00:00:00.000Z" }

def seedEnvOk : SeedEnv := { readFails := fun _ => false, writeFails := fun _ => false }

def seedEnvFail1 : SeedEnv :=
  { readFails := fun _ => false, writeFails := fun id => id == "prd-001" }

def preexistingDoc : ProductData :=
  { id := "prd-002", name := "Custom Orange", description := "kept by the seeder",
    price := 1.5, stock := 7, imageKey := "customOrange" }

/-! Helper lemmas about the federated sign-in flow and the sign-up trace. -/

theorem googleProfileSync_exists (store : Store UserData) (now : String)
    (w : Except AuthError Unit) (u : User) (d : UserData) (h : store u.uid = some d) :
    googleProfileSync store now w u = (.ok (), [.profileRead u.uid], store) := by
  unfold googleProfileSync
  rw [h]

theorem googleProfileSync_absent_ok (store : Store UserData) (now : String)
    (w : Except AuthError Unit) (u : User) (h : store u.uid = none) (hw : w = .ok ()) :
    googleProfileSync store now w u =
      (.ok (), [.profileRead u.uid, .profileWrite u.uid (googleUserData now u)],
        store.set u.uid (googleUserData now u)) := by
  unfold googleProfileSync
  rw [h, hw]
  rfl

theorem googleProfileSync_absent_err (store : Store UserData) (now : String)
    (w : Except AuthError Unit) (u : User) (e : AuthError)
    (h : store u.uid = none) (hw : w = .error e) :
    googleProfileSync store now w u =
      (.error e, [.profileRead u.uid, .profileWrite u.uid (googleUserData now u)], store) := by
  unfold googleProfileSync
  rw [h, hw]
  rfl

theorem signInWithGoogle_eventsStore (env : GoogleEnv) (store : Store UserData) :
    (signInWithGoogle env store).events = (signInWithGoogleBody env store).2.1 ∧
    (signInWithGoogle env store).store = (signInWithGoogleBody env store).2.2 := by
  simp only [signInWithGoogle]
  cases h : (signInWithGoogleBody env store).1 <;> simp [h]

theorem signInWithGoogleBody_events (env : GoogleEnv) (store : Store UserData) :
    ((signInWithGoogleBody env store).2 = ([], store)) ∨
    ∃ u : User, (signInWithGoogleBody env store).2 =
      (googleProfileSync store env.now env.profileWriteOk u).2 := by
  unfold signInWithGoogleBody
  cases hst : env.strategy with
  | web =>
    cases hp : env.popupResult with
    | error e => exact Or.inl rfl
    | ok user =>
      refine Or.inr ⟨user, ?_⟩
      cases hs : (googleProfileSync store env.now env.profileWriteOk user).1 <;>
        simp [hs]
  | unavailable => exact Or.inl rfl
  | nativeModule =>
    cases hplay : env.hasPlayServices with
    | error e => exact Or.inl rfl
    | ok _ =>
      cases hns : env.nativeSignIn with
      | error e => exact Or.inl rfl
      | ok idToken =>
        cases ht : strTruthy idToken with
        | false => simp [ht]
        | true =>
          cases hc : env.credentialResult with
          | error e => simp [ht, hc]
          | ok user =>
            refine Or.inr ⟨user, ?_⟩
            cases hs : (googleProfileSync store env.now env.profileWriteOk user).1 <;>
              simp [ht, hc, hs]

theorem signInWithGoogleBody_ok (env : GoogleEnv) (store : Store UserData) (u : User)
    (h : (signInWithGoogleBody env store).1 = .ok u) :
    (googleProfileSync store env.now env.profileWriteOk u).1 = .ok () ∧
    (signInWithGoogleBody env store).2 =
      (googleProfileSync store env.now env.profileWriteOk u).2 := by
  unfold signInWithGoogleBody at h ⊢
  cases hst : env.strategy <;> simp [hst] at h ⊢
  case web =>
    cases hp : env.popupResult <;> simp [hp] at h ⊢
    case ok user =>
      cases hs : (googleProfileSync store env.now env.profileWriteOk user).1 <;>
        simp [hs] at h ⊢
      case ok =>
        cases h
        simpa using hs
  case nativeModule =>
    cases hplay : env.hasPlayServices <;> simp [hplay] at h ⊢
    case ok =>
      cases hns : env.nativeSignIn <;> simp [hns] at h ⊢
      case ok idToken =>
        cases ht : strTruthy idToken <;> simp [ht] at h ⊢
        case true =>
          cases hc : env.credentialResult <;> simp [hc] at h ⊢
          case ok user =>
            cases hs : (googleProfileSync store env.now env.profileWriteOk user).1 <;>
              simp [hs] at h ⊢
            case ok =>
              cases h
              simpa using hs

theorem signInWithGoogle_ok (env : GoogleEnv) (store : Store UserData) (u : User)
    (h : (signInWithGoogle env store).result = .ok u) :
    (signInWithGoogleBody env store).1 = .ok u := by
  simp only [signInWithGoogle] at h
  cases hb : (signInWithGoogleBody env store).1 with
  | ok v => rw [hb] at h; simpa using h
  | error e => rw [hb] at h; simp at h

theorem signUpWithEmail_no_read (b : SignUpBackend) (store : Store UserData)
    (email pw : String) (fn un : Option String) (uid : String) :
    AuthEvent.profileRead uid ∉ (signUpWithEmail b store email pw fn un).events := by
  unfold signUpWithEmail
  cases b.createAccount with
  | error e => simp
  | ok user =>
    cases hfn : strTruthy fn <;> cases hun : strTruthy un <;>
      cases b.updateProfileOk <;> cases b.sendVerificationOk <;>
        cases b.profileWriteOk <;> simp [hfn, hun]

/-- C4: for every sequence of observer callback events, after each event the
Session's identity equals that event's argument, `isLoading` and
`isInitializing` are false from the first event onward, and the derived
`isAuthenticated` always equals `identity != none`. -/
theorem session_normalization :
    (∀ (pre : List (Option User)) (e : Option User),
        replaySession (pre ++ [e]) =
          { user := e, loading := false, initializing := false }) ∧
    (∀ events : List (Option User),
        (contextValue (replaySession events)).isAuthenticated =
          (replaySession events).user.isSome) ∧
    (∀ events : List (Option User),
        ((contextValue (replaySession events)).isAuthenticated = true) ↔
          (replaySession events).user ≠ none) := by
  refine ⟨fun pre e => ?_, fun events => rfl, fun events => ?_⟩
  · simp [replaySession, List.foldl_append, authStateCallback]
  · simp [contextValue, Option.isSome_iff_ne_none]

/-- C4 witness: a concrete three-event callback sequence. -/
theorem session_normalization_witness :
    replaySession ([some gUser, none] ++ [some uAnn]) =
      { user := some uAnn, loading := false, initializing := false } :=
  session_normalization.1 [some gUser, none] (some uAnn)

/-- C9: `useAuth` throws exactly when no provider context is present; inside
the provider it returns the provider's value, which carries `user`, `loading`,
`initializing`, `isAuthenticated` and `isEmailVerified`. -/
theorem useAuth_spec :
    (useAuth none =
        .error { code := none, message := "useAuth must be used within an AuthProvider" }) ∧
    (∀ c : AuthContextType, useAuth (some c) = .ok c) ∧
    (∀ s : SessionState,
        useAuth (some (contextValue s)) =
          .ok { user := s.user
                loading := s.loading
                initializing := s.initializing
                isAuthenticated := s.user.isSome
                isEmailVerified := (s.user.map User.emailVerified).getD false }) :=
  ⟨rfl, fun _ => rfl, fun _ => rfl⟩

/-- C9 witness: a concrete provider state with an authenticated user. -/
theorem useAuth_spec_witness :
    useAuth (some (contextValue { user := some gUser, loading := false, initializing := false })) =
      .ok { user := some gUser
            loading := false
            initializing := false
            isAuthenticated := (some gUser).isSome
            isEmailVerified := ((some gUser).map User.emailVerified).getD false } :=
  useAuth_spec.2.2 { user := some gUser, loading := false, initializing := false }

/-- C6: whenever the primary Firebase sign-out succeeds, `signOut` returns
success, for every outcome of the best-effort Google sign-out step — a thrown
provider error is swallowed, never surfaced. -/
theorem signOut_resilience (env : SignOutEnv) (h : env.firebaseSignOut = .ok ()) :
    signOut env = .ok () := by
  unfold signOut
  rw [h]
  cases env.strategy with
  | web => rfl
  | unavailable => rfl
  | nativeModule => cases env.googleSignOut <;> rfl

/-- C6 witness: the Google sign-out throws, yet `signOut` succeeds. -/
theorem signOut_resilience_witness :
    signOut { strategy := .nativeModule
              firebaseSignOut := .ok ()
              googleSignOut := .error { code := none, message := "no google session" } } =
      .ok () :=
  signOut_resilience _ rfl

/-- C7: resend-verification with no signed-in user fails, and the surfaced
error is the one the spec taxonomy classifies as `NoActiveSession`. -/
theorem resendVerification_no_session (sendResult : Except AuthError Unit) :
    resendEmailVerification none sendResult = .error noActiveSessionError ∧
    specErrorKind noActiveSessionError = .noActiveSession :=
  ⟨rfl, by decide⟩

/-- C7 witness: concrete invocation with a would-succeed dispatch oracle. -/
theorem resendVerification_no_session_witness :
    resendEmailVerification none (.ok ()) = .error noActiveSessionError ∧
    specErrorKind noActiveSessionError = .noActiveSession :=
  resendVerification_no_session (.ok ())

/-- C5: for every backend error code recognized by `handleAuthError`, the
mapped error is determined by the code alone (deterministic, independent of
the raw backend message), its message is non-empty, and the raw backend error
is replaced rather than surfaced. -/
theorem error_mapping_totality (c : String) (hc : c ∈ knownAuthCodes)
    (e1 e2 : AuthError) (h1 : e1.code = some c) (h2 : e2.code = some c) :
    handleAuthError e1 = handleAuthError e2 ∧
    (handleAuthError e1).message ≠ "" ∧
    (handleAuthError e1).code = some c := by
  simp only [knownAuthCodes, List.mem_cons, List.not_mem_nil, or_false] at hc
  rcases hc with rfl | rfl | rfl | rfl | rfl | rfl | rfl | rfl | rfl | rfl <;>
    simp [handleAuthError, authErrorMessage, h1, h2]

/-- C5 witness: the wrong-password code maps identically for two different raw
backend messages, with a fixed non-empty user-facing message. -/
theorem error_mapping_totality_witness :
    handleAuthError { code := some "auth/wrong-password", message := "raw backend text A" } =
      handleAuthError { code := some "auth/wrong-password", message := "raw backend text B" } ∧
    (handleAuthError { code := some "auth/wrong-password", message := "raw backend text A" }).message ≠ "" ∧
    (handleAuthError { code := some "auth/wrong-password", message := "raw backend text A" }).code =
      some "auth/wrong-password" :=
  error_mapping_totality "auth/wrong-password" (by decide)
    { code := some "auth/wrong-password", message := "raw backend text A" }
    { code := some "auth/wrong-password", message := "raw backend text B" } rfl rfl

/-- C1 counterexample: a sign-up run against a store already holding a Profile
for the authenticated uid issues no existence read, overwrites the existing
document, and still returns success — refuting the claim that sign-up reads
first and writes only if no document exists. -/
theorem signUp_overwrites_existing_profile :
    (signUpWithEmail signUpBackendOk storeWithU1 "a@b.com" "password123"
        (some "Ann") none).store "u1" ≠ some oldProfile ∧
    AuthEvent.profileRead "u1" ∉
      (signUpWithEmail signUpBackendOk storeWithU1 "a@b.com" "password123"
        (some "Ann") none).events ∧
    (signUpWithEmail signUpBackendOk storeWithU1 "a@b.com" "password123"
        (some "Ann") none).result = .ok uAnn :=
  ⟨by decide, by decide, rfl⟩

/-- C1 (amended): federated sign-in is existence-gated — it never overwrites
an existing Profile, and any Profile write is preceded by an existence read of
a uid the store holds no document for; sign-up, by contrast, performs no
existence read at all (and so can overwrite, though backend-created uids are
fresh in practice). -/
theorem profile_write_gating (env : GoogleEnv) (store : Store UserData) :
    (∀ uid d, store uid = some d → (signInWithGoogle env store).store uid = some d) ∧
    (∀ uid data, AuthEvent.profileWrite uid data ∈ (signInWithGoogle env store).events →
        AuthEvent.profileRead uid ∈ (signInWithGoogle env store).events ∧
          store uid = none) ∧
    (∀ (b : SignUpBackend) (st : Store UserData) (email pw : String)
        (fn un : Option String) (uid : String),
        AuthEvent.profileRead uid ∉ (signUpWithEmail b st email pw fn un).events) := by
  obtain ⟨hev, hstore⟩ := signInWithGoogle_eventsStore env store
  refine ⟨?_, ?_, fun b st email pw fn un uid => signUpWithEmail_no_read b st email pw fn un uid⟩
  · intro uid d hd
    rw [hstore]
    rcases signInWithGoogleBody_events env store with h | ⟨u, h⟩
    · rw [h]
      exact hd
    · rw [h]
      unfold googleProfileSync
      cases hu : store u.uid with
      | some d2 => exact hd
      | none =>
        cases env.profileWriteOk with
        | error e => exact hd
        | ok _ =>
          simp only [Store.set]
          have : uid ≠ u.uid := fun heq => by rw [heq, hu] at hd; exact Option.noConfusion hd
          simp [this]
          exact hd
  · intro uid data hmem
    rw [hev] at hmem
    rw [hev]
    rcases signInWithGoogleBody_events env store with h | ⟨u, h⟩
    · rw [h] at hmem
      simp at hmem
    · rw [h] at hmem ⊢
      unfold googleProfileSync at hmem ⊢
      cases hu : store u.uid with
      | some d2 =>
        rw [hu] at hmem
        simp at hmem
      | none =>
        rw [hu] at hmem
        cases hw : env.profileWriteOk with
        | error e =>
          rw [hw] at hmem
          simp at hmem ⊢
          rcases hmem with ⟨rfl, rfl⟩
          exact ⟨rfl, hu⟩
        | ok _ =>
          rw [hw] at hmem
          simp at hmem ⊢
          rcases hmem with ⟨rfl, rfl⟩
          exact ⟨rfl, hu⟩

/-- C1 witness: a federated sign-in over a store holding a Profile for `u1`
leaves that document untouched. -/
theorem profile_write_gating_witness :
    (signInWithGoogle gEnvWeb storeWithU1).store "u1" = some oldProfile :=
  (profile_write_gating gEnvWeb storeWithU1).1 "u1" oldProfile (by decide)

/-- C2 counterexample: a sign-up in which account creation succeeds but the
companion Profile write fails surfaces an error — the caller does not receive
the successful Identity. -/
theorem signUp_profileWriteFailure_surfaces_error :
    (signUpWithEmail signUpBackendWriteFail Store.empty "a@b.com" "password123"
        (some "Ann") none).result =
      .error { code := some "firestore/unavailable"
               message := "Failed to write user document" } := by
  rfl

/-- C2 (amended): when the backend account creation or credential exchange
succeeds but the companion Profile write fails, the operation does not return
the Identity — it fails, surfacing the write error (rewritten by
`handleAuthError` for sign-up, by the sign-in `catch` block for federated
sign-in). -/
theorem profileWriteFailure_fails_operation :
    (∀ (b : SignUpBackend) (store : Store UserData) (email pw : String)
        (fn un : Option String) (u : User) (e : AuthError),
        b.createAccount = .ok u → b.updateProfileOk = .ok () →
        b.sendVerificationOk = .ok () → b.profileWriteOk = .error e →
        (strTruthy un || strTruthy fn) = true →
        (signUpWithEmail b store email pw fn un).result = .error (handleAuthError e)) ∧
    (∀ (env : GoogleEnv) (store : Store UserData) (u : User) (e : AuthError),
        ((env.strategy = .web ∧ env.popupResult = .ok u) ∨
          (env.strategy = .nativeModule ∧ env.hasPlayServices = .ok () ∧
            (∃ t, env.nativeSignIn = .ok t ∧ strTruthy t = true) ∧
            env.credentialResult = .ok u)) →
        store u.uid = none → env.profileWriteOk = .error e →
        (signInWithGoogle env store).result = .error (googleCatch env.statusCodes e)) := by
  constructor
  · intro b store email pw fn un u e hcreate hupd hsend hw hgiven
    unfold signUpWithEmail
    rw [hcreate]
    cases hfn : strTruthy fn with
    | false =>
      simp [hfn] at hgiven
      simp [hfn, hgiven, hsend, hw]
    | true =>
      simp [hfn, hupd, hsend, hw, hgiven]
  · intro env store u e hexch habsent hw
    have hsync := googleProfileSync_absent_err store env.now env.profileWriteOk u e habsent hw
    simp only [signInWithGoogle]
    unfold signInWithGoogleBody
    rcases hexch with ⟨hstrat, hpopup⟩ | ⟨hstrat, hplay, ⟨t, hns, ht⟩, hcred⟩
    · rw [hstrat, hpopup]
      simp [hsync]
    · rw [hstrat, hplay, hns]
      simp [ht, hcred, hsync]

/-- C2 witness: a concrete failing Profile write during sign-up, and one
during a native-module federated sign-in. -/
theorem profileWriteFailure_fails_operation_witness :
    ((signUpWithEmail signUpBackendWriteFail Store.empty "a@b.com" "password123"
        (some "Ann") none).result = .error (handleAuthError firestoreDownError)) ∧
    ((signInWithGoogle gEnvNativeWriteFail Store.empty).result =
      .error (googleCatch gEnvNativeWriteFail.statusCodes firestoreDownError)) :=
  ⟨profileWriteFailure_fails_operation.1 signUpBackendWriteFail Store.empty
      "a@b.com" "password123" (some "Ann") none uAnn firestoreDownError
      rfl rfl rfl rfl (by decide),
    profileWriteFailure_fails_operation.2 gEnvNativeWriteFail Store.empty
      gUser firestoreDownError
      (Or.inr ⟨rfl, rfl, ⟨some "id-token-123", rfl, by decide⟩, rfl⟩) rfl rfl⟩

/-- C3: two sequential federated sign-ins succeeding for the same uid, over a
store with no Profile for that uid, leave exactly one Profile document for the
uid: the one written on the first sign-in, with `emailVerified = true`, and
across both invocations exactly one Profile-write call is issued. -/
theorem googleSignIn_idempotent_profile (env1 env2 : GoogleEnv)
    (store : Store UserData) (u1 u2 : User)
    (h0 : store u1.uid = none)
    (h1 : (signInWithGoogle env1 store).result = .ok u1)
    (h2 : (signInWithGoogle env2 (signInWithGoogle env1 store).store).result = .ok u2)
    (huid : u2.uid = u1.uid) :
    (signInWithGoogle env2 (signInWithGoogle env1 store).store).store u1.uid =
        some (googleUserData env1.now u1) ∧
    (googleUserData env1.now u1).emailVerified = true ∧
    ((signInWithGoogle env1 store).events ++
        (signInWithGoogle env2 (signInWithGoogle env1 store).store).events).countP
      (isProfileWriteFor u1.uid) = 1 := by
  -- first invocation: the body succeeded and ran the profile sync
  obtain ⟨hev1, hst1⟩ := signInWithGoogle_eventsStore env1 store
  obtain ⟨hsync1ok, hbody1⟩ :=
    signInWithGoogleBody_ok env1 store u1 (signInWithGoogle_ok env1 store u1 h1)
  -- with no existing Profile, sync success forces a successful write
  cases hw1 : env1.profileWriteOk with
  | error e =>
    rw [googleProfileSync_absent_err store env1.now env1.profileWriteOk u1 e h0 hw1] at hsync1ok
    exact absurd hsync1ok (by simp)
  | ok _ =>
    have hsync1 :=
      googleProfileSync_absent_ok store env1.now env1.profileWriteOk u1 h0 hw1
    rw [hsync1] at hbody1
    have hev1' : (signInWithGoogle env1 store).events =
        [.profileRead u1.uid, .profileWrite u1.uid (googleUserData env1.now u1)] := by
      rw [hev1, hbody1]
    have hst1' : (signInWithGoogle env1 store).store =
        store.set u1.uid (googleUserData env1.now u1) := by
      rw [hst1, hbody1]
    -- second invocation: the Profile now exists, so the sync only reads
    obtain ⟨hev2, hst2⟩ :=
      signInWithGoogle_eventsStore env2 (signInWithGoogle env1 store).store
    obtain ⟨hsync2ok, hbody2⟩ :=
      signInWithGoogleBody_ok env2 (signInWithGoogle env1 store).store u2
        (signInWithGoogle_ok env2 (signInWithGoogle env1 store).store u2 h2)
    have hexists : (signInWithGoogle env1 store).store u2.uid =
        some (googleUserData env1.now u1) := by
      rw [hst1', huid]
      simp [Store.set]
    have hsync2 :=
      googleProfileSync_exists (signInWithGoogle env1 store).store env2.now
        env2.profileWriteOk u2 (googleUserData env1.now u1) hexists
    rw [hsync2] at hbody2
    have hev2' : (signInWithGoogle env2 (signInWithGoogle env1 store).store).events =
        [.profileRead u2.uid] := by
      rw [hev2, hbody2]
    have hst2' : (signInWithGoogle env2 (signInWithGoogle env1 store).store).store =
        (signInWithGoogle env1 store).store := by
      rw [hst2, hbody2]
    refine ⟨?_, rfl, ?_⟩
    · rw [hst2', hst1']
      simp [Store.set]
    · rw [hev1', hev2']
      simp [isProfileWriteFor, List.countP_cons, List.countP_nil]

/-- C3 witness: two concrete web-strategy sign-ins over an empty store. -/
theorem googleSignIn_idempotent_profile_witness :
    (signInWithGoogle gEnvWeb (signInWithGoogle gEnvWeb Store.empty).store).store gUser.uid =
        some (googleUserData gEnvWeb.now gUser) ∧
    (googleUserData gEnvWeb.now gUser).emailVerified = true ∧
    ((signInWithGoogle gEnvWeb Store.empty).events ++
        (signInWithGoogle gEnvWeb (signInWithGoogle gEnvWeb Store.empty).store).events).countP
      (isProfileWriteFor gUser.uid) = 1 :=
  googleSignIn_idempotent_profile gEnvWeb gEnvWeb Store.empty gUser gUser
    rfl rfl rfl rfl

/-- C8: a successful sign-up with email a@b.com, password password123,
fullName Ann and no username returns the backend Identity carrying that
email, issues exactly one verification-email dispatch, and writes exactly one
Profile document with email a@b.com, fullName Ann, empty username and
`emailVerified = false`. -/
theorem signUp_scenario (b : SignUpBackend) (store : Store UserData) (u : User)
    (hcreate : b.createAccount = .ok u)
    (hemail : u.email = some "a@b.com")
    (hupd : b.updateProfileOk = .ok ())
    (hsend : b.sendVerificationOk = .ok ())
    (hw : b.profileWriteOk = .ok ()) :
    (signUpWithEmail b store "a@b.com" "password123" (some "Ann") none).result = .ok u ∧
    u.email = some "a@b.com" ∧
    (signUpWithEmail b store "a@b.com" "password123" (some "Ann") none).events.countP
        (isSendVerificationFor u.uid) = 1 ∧
    (signUpWithEmail b store "a@b.com" "password123" (some "Ann") none).events.countP
        (isProfileWriteFor u.uid) = 1 ∧
    AuthEvent.profileWrite u.uid
        { email := "a@b.com", fullName := "Ann", username := "",
          createdAt := b.now, emailVerified := false } ∈
      (signUpWithEmail b store "a@b.com" "password123" (some "Ann") none).events ∧
    (signUpWithEmail b store "a@b.com" "password123" (some "Ann") none).store u.uid =
      some { email := "a@b.com", fullName := "Ann", username := "",
             createdAt := b.now, emailVerified := false } := by
  have hrun : signUpWithEmail b store "a@b.com" "password123" (some "Ann") none =
      ⟨.ok u,
        [.createAccount "a@b.com" "password123", .updateDisplayName u.uid "Ann",
          .sendVerification u.uid,
          .profileWrite u.uid
            { email := "a@b.com", fullName := "Ann", username := "",
              createdAt := b.now, emailVerified := false }],
        store.set u.uid
          { email := "a@b.com", fullName := "Ann", username := "",
            createdAt := b.now, emailVerified := false }⟩ := by
    unfold signUpWithEmail
    rw [hcreate]
    simp [strTruthy, strOrEmpty, hupd, hsend, hw, hemail]
  rw [hrun]
  refine ⟨rfl, hemail, ?_, ?_, ?_, ?_⟩
  · simp [isSendVerificationFor, List.countP_cons, List.countP_nil]
  · simp [isProfileWriteFor, List.countP_cons, List.countP_nil]
  · simp
  · simp [Store.set]

/-- C8 witness: the concrete all-success backend run. -/
theorem signUp_scenario_witness :
    (signUpWithEmail signUpBackendOk Store.empty "a@b.com" "password123"
        (some "Ann") none).result = .ok uAnn ∧
    uAnn.email = some "a@b.com" ∧
    (signUpWithEmail signUpBackendOk Store.empty "a@b.com" "password123"
        (some "Ann") none).events.countP (isSendVerificationFor uAnn.uid) = 1 ∧
    (signUpWithEmail signUpBackendOk Store.empty "a@b.com" "password123"
        (some "Ann") none).events.countP (isProfileWriteFor uAnn.uid) = 1 ∧
    AuthEvent.profileWrite uAnn.uid
        { email := "a@b.com", fullName := "Ann", username := "",
          createdAt := signUpBackendOk.now, emailVerified := false } ∈
      (signUpWithEmail signUpBackendOk Store.empty "a@b.com" "password123"
        (some "Ann") none).events ∧
    (signUpWithEmail signUpBackendOk Store.empty "a@b.com" "password123"
        (some "Ann") none).store uAnn.uid =
      some { email := "a@b.com", fullName := "Ann", username := "",
             createdAt := signUpBackendOk.now, emailVerified := false } :=
  signUp_scenario signUpBackendOk Store.empty uAnn rfl rfl rfl rfl rfl

/-! Helper lemmas about the seeding loop. -/

theorem seedLoop_cons (env : SeedEnv) (store : Store ProductData)
    (p : ProductData) (ps : List ProductData) :
    seedLoop env store (p :: ps) =
      ((seedProduct env store p).1 :: (seedLoop env (seedProduct env store p).2 ps).1,
        (seedLoop env (seedProduct env store p).2 ps).2) := rfl

theorem seedProduct_result_id (env : SeedEnv) (store : Store ProductData)
    (p : ProductData) :
    (seedProduct env store p).1.id = p.id := by
  unfold seedProduct
  by_cases hr : env.readFails p.id = true
  · simp [hr]
  · simp [hr]
    cases hid : store p.id with
    | some d => simp
    | none =>
      by_cases hwr : env.writeFails p.id = true <;> simp [hwr]

theorem seedProduct_mono (env : SeedEnv) (store : Store ProductData)
    (p : ProductData) (q : String) :
    (seedProduct env store p).2 q = store q ∨
      (store q = none ∧ (seedProduct env store p).2 q = some p) := by
  unfold seedProduct
  by_cases hr : env.readFails p.id = true
  · simp [hr]
  · simp [hr]
    cases hid : store p.id with
    | some d => simp
    | none =>
      by_cases hwr : env.writeFails p.id = true
      · simp [hwr]
      · simp [hwr, Store.set]
        by_cases hq : q = p.id
        · subst hq
          exact Or.inr ⟨hid, by simp⟩
        · simp [hq]

theorem seedProduct_keep (env : SeedEnv) (store : Store ProductData)
    (p : ProductData) (h : (store p.id).isSome = true) :
    (seedProduct env store p).2 = store := by
  unfold seedProduct
  by_cases hr : env.readFails p.id = true
  · simp [hr]
  · simp [hr]
    cases hid : store p.id with
    | some d => simp
    | none => rw [hid] at h; simp at h

theorem seedProduct_ok_present (store : Store ProductData) (p : ProductData) :
    ((seedProduct seedEnvOk store p).2 p.id).isSome = true := by
  unfold seedProduct seedEnvOk
  cases hid : store p.id with
  | some d => simp [hid]
  | none => simp [hid, Store.set]

theorem seedLoop_length (env : SeedEnv) (ps : List ProductData) :
    ∀ store : Store ProductData, (seedLoop env store ps).1.length = ps.length := by
  induction ps with
  | nil => intro store; rfl
  | cons p ps ih => intro store; rw [seedLoop_cons]; simp [ih]

theorem seedLoop_ids (env : SeedEnv) (ps : List ProductData) :
    ∀ store : Store ProductData,
      (seedLoop env store ps).1.map SeedResult.id = ps.map ProductData.id := by
  induction ps with
  | nil => intro store; rfl
  | cons p ps ih =>
    intro store
    rw [seedLoop_cons]
    simp [ih, seedProduct_result_id]

theorem seedLoop_mono (env : SeedEnv) (ps : List ProductData) :
    ∀ (store : Store ProductData) (q : String),
      (seedLoop env store ps).2 q = store q ∨ store q = none := by
  induction ps with
  | nil => intro store q; exact Or.inl rfl
  | cons p ps ih =>
    intro store q
    rw [seedLoop_cons]
    rcases ih (seedProduct env store p).2 q with h1 | h1
    · rcases seedProduct_mono env store p q with h2 | ⟨h2, _⟩
      · exact Or.inl (h1.trans h2)
      · exact Or.inr h2
    · rcases seedProduct_mono env store p q with h2 | ⟨h2, _⟩
      · exact Or.inr (h2 ▸ h1)
      · exact Or.inr h2

theorem seedLoop_preserve (env : SeedEnv) (ps : List ProductData)
    (store : Store ProductData) (q : String) (d : ProductData)
    (h : store q = some d) :
    (seedLoop env store ps).2 q = some d := by
  rcases seedLoop_mono env ps store q with h1 | h1
  · rw [h1, h]
  · rw [h] at h1; exact absurd h1 (by simp)

theorem seedLoop_keep (env : SeedEnv) (ps : List ProductData) :
    ∀ store : Store ProductData, (∀ p ∈ ps, (store p.id).isSome = true) →
      (seedLoop env store ps).2 = store := by
  induction ps with
  | nil => intro store _; rfl
  | cons p ps ih =>
    intro store hall
    rw [seedLoop_cons]
    have hkeep := seedProduct_keep env store p (hall p (by simp))
    rw [hkeep]
    exact ih store fun q hq => hall q (by simp [hq])

theorem seedLoop_ok_present (ps : List ProductData) :
    ∀ (store : Store ProductData) (p : ProductData), p ∈ ps →
      ((seedLoop seedEnvOk store ps).2 p.id).isSome = true := by
  induction ps with
  | nil => intro store p hp; simp at hp
  | cons q ps ih =>
    intro store p hp
    rw [seedLoop_cons]
    rcases List.mem_cons.mp hp with rfl | hp2
    · have hpresent := seedProduct_ok_present store p
      obtain ⟨d, hd⟩ := Option.isSome_iff_exists.mp hpresent
      rw [seedLoop_preserve seedEnvOk ps _ p.id d hd]
      rfl
    · exact ih (seedProduct seedEnvOk store q).2 p hp2

/-- C10: `seedInventory` processes all 13 products even when individual
products fail, never overwrites an existing inventory document (it writes a
product only when no document with that id exists), reports
`success = true` exactly when zero products failed, and a second sequential
run after a clean run changes nothing. -/
theorem seedInventory_idempotent (env : SeedEnv) (store : Store ProductData) :
    (seedInventory env store).1.results.length = 13 ∧
    ((seedInventory env store).1.results.map SeedResult.id =
      productsData.map ProductData.id) ∧
    (∀ id d, store id = some d → (seedInventory env store).2 id = some d) ∧
    (∀ id, (seedInventory env store).2 id = store id ∨ store id = none) ∧
    ((seedInventory env store).1.success = true ↔
      (seedInventory env store).1.failed = 0) ∧
    (∀ id, (seedInventory env (seedInventory seedEnvOk store).2).2 id =
        (seedInventory seedEnvOk store).2 id) := by
  refine ⟨?_, ?_, ?_, ?_, ?_, ?_⟩
  · show (seedLoop env store productsData).1.length = 13
    rw [seedLoop_length]
    rfl
  · exact seedLoop_ids env productsData store
  · exact fun id d h => seedLoop_preserve env productsData store id d h
  · exact fun id => seedLoop_mono env productsData store id
  · simp only [seedInventory]
    simp
  · intro id
    have hkeep := seedLoop_keep env productsData (seedLoop seedEnvOk store productsData).2
      (fun p hp => seedLoop_ok_present productsData store p hp)
    show (seedLoop env (seedLoop seedEnvOk store productsData).2 productsData).2 id =
      (seedLoop seedEnvOk store productsData).2 id
    rw [hkeep]

/-- C10 witness: a store pre-holding a custom document for `prd-002` keeps it
through a run in which `prd-001` fails to write. -/
theorem seedInventory_idempotent_witness :
    (seedInventory seedEnvFail1 (Store.empty.set "prd-002" preexistingDoc)).2 "prd-002" =
      some preexistingDoc :=
  (seedInventory_idempotent seedEnvFail1 (Store.empty.set "prd-002" preexistingDoc)).2.2.1
    "prd-002" preexistingDoc (by simp [Store.set])

end Fruitzy
